import Mathlib

/-!
# Verification of the triqi map-interaction controller

Shallow embedding of the client-side map-interaction controller
(`client/src/components/map-container.tsx`), the marker-creation schema
(`shared/schema.ts`) and the mocked route-search backend
(`server/routes.ts`), together with proofs of the specified properties.

The mapbox engine is modelled as an explicit state (layers, sources,
delegated layer handlers, point markers); React `useState` cells become
fields of an explicit component state record and each event handler of
the component becomes a state-transition function.
-/

set_option maxHeartbeats 1000000

namespace Triqi

/-! ## Decimal rendering of naturals

`natStr n` models the JavaScript template-literal rendering of a
non-negative integer (as in `` `route-${routeIndex}` `` and `toFixed`),
i.e. ordinary base-10 notation.  It is fuel-structured so that the kernel
can evaluate it on concrete inputs. -/

def digitChar (d : ℕ) : Char := Char.ofNat (48 + d)

def natStrCore : ℕ → ℕ → List Char
  | 0, _ => []
  | fuel+1, n => if n < 10 then [digitChar n] else natStrCore fuel (n / 10) ++ [digitChar (n % 10)]

def natStr (n : ℕ) : String := ⟨natStrCore (n+1) n⟩

theorem digitChar_inj {a b : ℕ} (ha : a < 10) (hb : b < 10)
    (h : digitChar a = digitChar b) : a = b := by
  have key : ∀ x y : Fin 10, digitChar x.val = digitChar y.val → x = y := by decide
  have := key ⟨a, ha⟩ ⟨b, hb⟩ h
  exact congrArg Fin.val this

theorem natStrCore_fuel (n : ℕ) : ∀ f g : ℕ, n < f → n < g →
    natStrCore f n = natStrCore g n := by
  induction n using Nat.strong_induction_on with
  | _ n ih =>
    intro f g hf hg
    match f, g with
    | f'+1, g'+1 =>
      by_cases h10 : n < 10
      · simp [natStrCore, h10]
      · have hdiv : n / 10 < n := Nat.div_lt_self (by omega) (by omega)
        have hf' : n / 10 < f' := by omega
        have hg' : n / 10 < g' := by omega
        simp only [natStrCore, if_neg h10]
        rw [ih (n / 10) hdiv f' g' hf' hg']

theorem natStrCore_ne_nil (n : ℕ) : ∀ f : ℕ, n < f → natStrCore f n ≠ [] := by
  intro f hf
  match f with
  | f'+1 =>
    by_cases h10 : n < 10
    · simp [natStrCore, h10]
    · simp [natStrCore, h10]

theorem natStr_inj : ∀ m n : ℕ, natStr m = natStr n → m = n := by
  intro m
  induction m using Nat.strong_induction_on with
  | _ m ih =>
    intro n h
    have hdata : natStrCore (m+1) m = natStrCore (n+1) n := by
      have := congrArg String.data h
      simpa [natStr] using this
    by_cases hm : m < 10 <;> by_cases hn : n < 10
    · -- both single digit
      simp only [natStrCore, if_pos hm, if_pos hn] at hdata
      exact digitChar_inj hm hn (List.head_eq_of_cons_eq hdata)
    · -- m single digit, n not: length mismatch
      exfalso
      have hnd : n / 10 < n := Nat.div_lt_self (by omega) (by omega)
      simp only [natStrCore, if_pos hm, if_neg hn] at hdata
      have hne := natStrCore_ne_nil (n / 10) n hnd
      have hlen := congrArg List.length hdata
      simp only [List.length_cons, List.length_nil, List.length_append] at hlen
      have : natStrCore n (n / 10) ≠ [] := hne
      have hpos : 0 < (natStrCore n (n / 10)).length := List.length_pos.mpr this
      omega
    · -- n single digit, m not
      exfalso
      have hmd : m / 10 < m := Nat.div_lt_self (by omega) (by omega)
      simp only [natStrCore, if_neg hm, if_pos hn] at hdata
      have hne := natStrCore_ne_nil (m / 10) m hmd
      have hlen := congrArg List.length hdata
      simp only [List.length_cons, List.length_nil, List.length_append] at hlen
      have hpos : 0 < (natStrCore m (m / 10)).length := List.length_pos.mpr hne
      omega
    · -- both at least two digits
      have hmd : m / 10 < m := Nat.div_lt_self (by omega) (by omega)
      have hnd : n / 10 < n := Nat.div_lt_self (by omega) (by omega)
      simp only [natStrCore, if_neg hm, if_neg hn] at hdata
      have hrev := congrArg List.reverse hdata
      simp only [List.reverse_append, List.reverse_cons, List.reverse_nil,
        List.nil_append, List.cons_append, List.cons.injEq] at hrev
      obtain ⟨hlast, hpre⟩ := hrev
      have hmod : m % 10 = n % 10 :=
        digitChar_inj (Nat.mod_lt _ (by omega)) (Nat.mod_lt _ (by omega)) hlast
      have hpre' : natStrCore m (m / 10) = natStrCore n (n / 10) := by
        have := congrArg List.reverse hpre
        simpa using this
    -- normalise the fuel on both sides and use the inductive hypothesis
      have hfix : natStrCore (m / 10 + 1) (m / 10) = natStrCore (n / 10 + 1) (n / 10) := by
        rw [natStrCore_fuel (m / 10) (m / 10 + 1) m (by omega) hmd] at *
        rw [natStrCore_fuel (n / 10) (n / 10 + 1) n (by omega) hnd] at *
        exact hpre'
      have hdiveq : m / 10 = n / 10 := by
        apply ih (m / 10) hmd
        simp [natStr, hfix]
      have h1 := Nat.div_add_mod m 10
      have h2 := Nat.div_add_mod n 10
      omega

/-! ## JS string prefix test and trim -/

/-- `chPre p l` holds when the character list `l` starts with `p`
(model of `String.prototype.startsWith`). -/
def chPre : List Char → List Char → Bool
  | [], _ => true
  | _ :: _, [] => false
  | p :: ps, c :: cs => p = c && chPre ps cs

def startsWithB (s p : String) : Bool := chPre p.data s.data

theorem chPre_append (p t : List Char) : chPre p (p ++ t) = true := by
  induction p with
  | nil => rfl
  | cons a as ih => simp [chPre, ih]

theorem string_data_append (s t : String) : (s ++ t).data = s.data ++ t.data := by
  cases s; cases t; rfl

theorem startsWithB_append (p t : String) : startsWithB (p ++ t) p = true := by
  simp [startsWithB, string_data_append, chPre_append]

theorem append_left_cancel_str {p s t : String} (h : p ++ s = p ++ t) : s = t := by
  cases p with | mk pd =>
  cases s with | mk sd =>
  cases t with | mk td =>
  have hd := congrArg String.data h
  simp only [string_data_append] at hd
  exact congrArg String.mk (List.append_cancel_left hd)

/-- A character considered whitespace by `String.prototype.trim`
(the subset relevant to this development). -/
def jsWhitespace (c : Char) : Bool :=
  c = ' ' || c = '\t' || c = '\n' || c = '\r' || c = Char.ofNat 11 || c = Char.ofNat 12

/-- Model of `String.prototype.trim`: drop leading and trailing whitespace. -/
def jsTrim (s : String) : String :=
  ⟨((s.data.dropWhile jsWhitespace).reverse.dropWhile jsWhitespace).reverse⟩

/-! ## `Number.prototype.toFixed(4)`

Model of JS `x.toFixed(4)` over exact rationals: the magnitude is scaled
by `10^4` and rounded half away from zero, and the sign of a negative
input is kept (as in JS). -/

def pad4 (n : ℕ) : String :=
  ⟨List.replicate (4 - (natStr n).data.length) '0' ++ (natStr n).data⟩

def toFixed4 (q : ℚ) : String :=
  let neg := q < 0
  let a := if neg then -q else q
  let scaled : ℤ := (a.num * 10000 * 2 + (a.den : ℤ)) / (2 * (a.den : ℤ))
  let t := scaled.toNat
  (if neg then "-" else "") ++ natStr (t / 10000) ++ "." ++ pad4 (t % 10000)

/-! ## Data model

State of the mapbox engine as seen through the capability surface the
component uses, and the component's own React state cells. -/

structure Coord where
  lng : ℚ
  lat : ℚ
deriving DecidableEq, Repr

/-- An engine-side point marker (`new mapboxgl.Marker({color}).setLngLat(..)`).
Engine marker objects are identified by an id freshly allocated at creation. -/
structure EngMarker where
  id : ℕ
  color : String
  lng : ℚ
  lat : ℚ
deriving DecidableEq, Repr

/-- The mapbox engine state reachable through the handle: style layers and
sources by id, delegated per-layer event handlers (`map.on(event, layerId, fn)`),
point markers, and the last `fitBounds`/`flyTo` requests. -/
structure Engine where
  layers : List String
  sources : List String
  handlers : List (String × String)
  markers : List EngMarker
  nextMarkerId : ℕ
  lastFit : Option (ℚ × ℚ × ℚ × ℚ)
  lastFly : Option (ℚ × ℚ × ℚ)
deriving DecidableEq, Repr

/-- `clickMode` React state: `'none' | 'start' | 'end'`. -/
inductive ClickMode where
  | cnone
  | cstart
  | cend
deriving DecidableEq, Repr

structure TransitDetails where
  line : String
  vehicle : String
  stop : String
deriving DecidableEq, Repr

structure RouteStep where
  instruction : String
  distance : Option String
  duration : Option String
  transitDetails : Option TransitDetails
deriving DecidableEq, Repr

structure LatLng where
  lat : ℚ
  lng : ℚ
deriving DecidableEq, Repr

structure BoundsBox where
  southwest : LatLng
  northeast : LatLng
deriving DecidableEq, Repr

/-- A route's `geometry` object; `coordinates` is `none` when the field is
absent (JS `undefined`, falsy in the `route.geometry.coordinates` guard). -/
structure Geometry where
  coordinates : Option (List (ℚ × ℚ))
deriving DecidableEq, Repr

/-- A route as held by the client (`routeResults` entries); `geometry` is
`none` when the JSON object carries no such field. -/
structure ClientRoute where
  geometry : Option Geometry
  duration : String
  distance : String
  steps : List RouteStep
  bounds : Option BoundsBox
deriving DecidableEq, Repr

/-- A `RouteResult` produced by the server (`shared/schema.ts` `routeSchema`):
note there is no geometry field at all. -/
structure ServerRoute where
  duration : String
  distance : String
  steps : List RouteStep
  bounds : Option BoundsBox
deriving DecidableEq, Repr

/-- Reading a server `RouteResult` on the client: `route.geometry` is absent. -/
def toClientRoute (r : ServerRoute) : ClientRoute :=
  { geometry := none
    duration := r.duration
    distance := r.distance
    steps := r.steps
    bounds := r.bounds }

/-- Engine operations performed while replacing route overlays, in order. -/
inductive EngEvent where
  | offEv (event : String) (layerId : String)
  | removeLayer (id : String)
  | removeSource (id : String)
  | addSource (id : String)
  | addLayer (id : String)
  | onEv (event : String) (layerId : String)
deriving DecidableEq, Repr

/-- The component's React state cells (the subset the verified handlers touch). -/
structure CState where
  map : Option Engine
  clickMode : ClickMode
  startLocation : String
  endLocation : String
  startCoords : Option Coord
  endCoords : Option Coord
  startMarker : Option EngMarker
  endMarker : Option EngMarker
  routeResults : List ClientRoute
  isLoadingRoute : Bool
  activeRouteHandlers : List String
  showInfoPanel : Bool
  showRoutePanel : Bool
deriving DecidableEq, Repr

/-! ## Overlay id derivation -/

def rlPre : String := "route-layer-"

def rsPre : String := "route-"

/-- `` `route-${routeIndex}` `` -/
def routeSourceId (i : ℕ) : String := rsPre ++ natStr i

/-- `` `route-layer-${routeIndex}` `` -/
def routeLayerId (i : ℕ) : String := rlPre ++ natStr i

/-- The guard `route.geometry && route.geometry.coordinates`. -/
def hasGeom (r : ClientRoute) : Bool :=
  match r.geometry with
  | some g => g.coordinates.isSome
  | none => false

/-- Positions (from base index `i`) of the routes that pass the geometry guard. -/
def geomIndicesFrom (i : ℕ) : List ClientRoute → List ℕ
  | [] => []
  | r :: rs => if hasGeom r then i :: geomIndicesFrom (i+1) rs else geomIndicesFrom (i+1) rs

def geomIndices (rs : List ClientRoute) : List ℕ := geomIndicesFrom 0 rs

def routeLayersOf (e : Engine) : List String :=
  e.layers.filter (fun l => startsWithB l rlPre)

def routeSourcesOf (e : Engine) : List String :=
  e.sources.filter (fun l => startsWithB l rsPre)

/-! ## Endpoint markers (`addStartMarker`, `addEndMarker`, `clearLocationMarkers`) -/

/-- `marker.remove()`: detach the engine marker object from its map. -/
def removeEngMarker (m : EngMarker) (o : Option Engine) : Option Engine :=
  match o with
  | none => none
  | some e => some { e with markers := e.markers.filter (fun x => decide (x.id ≠ m.id)) }

/-- `addStartMarker(coordinates)`: no-op without a live map; removes the prior
start marker, then adds a fresh green (`#10b981`) marker and stores it. -/
def addStartMarker (c : Coord) (s : CState) : CState :=
  match s.map with
  | none => s
  | some _ =>
    let m0 := match s.startMarker with
      | some m => removeEngMarker m s.map
      | none => s.map
    match m0 with
    | none => s
    | some e =>
      let nm : EngMarker := ⟨e.nextMarkerId, "#10b981", c.lng, c.lat⟩
      { s with
          map := some { e with markers := e.markers ++ [nm], nextMarkerId := e.nextMarkerId + 1 }
          startMarker := some nm }

/-- `addEndMarker(coordinates)`: red (`#ef4444`) marker for the end endpoint. -/
def addEndMarker (c : Coord) (s : CState) : CState :=
  match s.map with
  | none => s
  | some _ =>
    let m0 := match s.endMarker with
      | some m => removeEngMarker m s.map
      | none => s.map
    match m0 with
    | none => s
    | some e =>
      let nm : EngMarker := ⟨e.nextMarkerId, "#ef4444", c.lng, c.lat⟩
      { s with
          map := some { e with markers := e.markers ++ [nm], nextMarkerId := e.nextMarkerId + 1 }
          endMarker := some nm }

/-- `clearLocationMarkers()`: remove both endpoint markers (if present) and
reset coordinates and display texts. -/
def clearLocationMarkers (s : CState) : CState :=
  let s1 := match s.startMarker with
    | some m => { s with map := removeEngMarker m s.map, startMarker := none }
    | none => s
  let s2 := match s1.endMarker with
    | some m => { s1 with map := removeEngMarker m s1.map, endMarker := none }
    | none => s1
  { s2 with startCoords := none, endCoords := none, startLocation := "", endLocation := "" }

/-! ## Route overlay replacement (`clearRouteLayersFromMap`, `displayRoutesOnMap`) -/

/-- First phase of `clearRouteLayersFromMap`: for each tracked layer id that is
still present, detach its click/mouseenter/mouseleave handlers. -/
def offLayerHandlers : List String → Engine → Engine × List EngEvent
  | [], e => (e, [])
  | lid :: rest, e =>
    if lid ∈ e.layers then
      let h1 := e.handlers.filter (fun h => decide (h ≠ ("click", lid)))
      let h2 := h1.filter (fun h => decide (h ≠ ("mouseenter", lid)))
      let h3 := h2.filter (fun h => decide (h ≠ ("mouseleave", lid)))
      let e' := { e with handlers := h3 }
      let r := offLayerHandlers rest e'
      (r.1, EngEvent.offEv "click" lid :: EngEvent.offEv "mouseenter" lid ::
            EngEvent.offEv "mouseleave" lid :: r.2)
    else offLayerHandlers rest e

/-- Walk a snapshot of the style's layer (resp. source) ids and remove from the
live list every id that starts with prefix `p` and is still present
(the `getLayer`/`getSource` re-check of the source). -/
def removeMatching (mk : String → EngEvent) (p : String) :
    List String → List String → List String × List EngEvent
  | [], cur => (cur, [])
  | id :: snap, cur =>
    if startsWithB id p ∧ id ∈ cur then
      let rest := removeMatching mk p snap (cur.erase id)
      (rest.1, mk id :: rest.2)
    else removeMatching mk p snap cur

/-- `clearRouteLayersFromMap()`: detach handlers of tracked route layers, reset
the tracking list, then remove all `route-layer-*` layers and all `route-*`
sources (layers strictly before sources). -/
def clearRouteLayersFromMap (s : CState) : CState × List EngEvent :=
  match s.map with
  | none => (s, [])
  | some e =>
    let p1 := offLayerHandlers s.activeRouteHandlers e
    let e1 := p1.1
    let p2 := removeMatching EngEvent.removeLayer rlPre e1.layers e1.layers
    let e2 := { e1 with layers := p2.1 }
    let p3 := removeMatching EngEvent.removeSource rsPre e2.sources e2.sources
    let e3 := { e2 with sources := p3.1 }
    ({ s with map := some e3, activeRouteHandlers := [] }, p1.2 ++ p2.2 ++ p3.2)

/-- The `routes.forEach((route, routeIndex) => ...)` body of
`displayRoutesOnMap`: for each route passing the geometry guard, add its
source (if absent), its layer (if absent) with click/hover handlers, and
track the layer id for later cleanup. -/
def addRoutes : ℕ → List ClientRoute → Engine → List String →
    Engine × List String × List EngEvent
  | _, [], e, act => (e, act, [])
  | i, r :: rs, e, act =>
    if hasGeom r then
      let sid := routeSourceId i
      let lid := routeLayerId i
      let p1 : Engine × List EngEvent :=
        if sid ∈ e.sources then (e, [])
        else ({ e with sources := e.sources ++ [sid] }, [EngEvent.addSource sid])
      let e1 := p1.1
      let p2 : Engine × List String × List EngEvent :=
        if lid ∈ e1.layers then (e1, act, [])
        else
          ({ e1 with
              layers := e1.layers ++ [lid]
              handlers := e1.handlers ++
                [("click", lid), ("mouseenter", lid), ("mouseleave", lid)] },
           act ++ [lid],
           [EngEvent.addLayer lid, EngEvent.onEv "click" lid,
            EngEvent.onEv "mouseenter" lid, EngEvent.onEv "mouseleave" lid])
      let rest := addRoutes (i+1) rs p2.1 p2.2.1
      (rest.1, rest.2.1, p1.2 ++ p2.2.2 ++ rest.2.2)
    else addRoutes (i+1) rs e act

/-- `displayRoutesOnMap(routes)`: no-op without a live map; otherwise clear all
existing route overlays, then add one source/layer pair per route that carries
geometry with coordinates. -/
def displayRoutesOnMap (routes : List ClientRoute) (s : CState) : CState × List EngEvent :=
  match s.map with
  | none => (s, [])
  | some _ =>
    let p1 := clearRouteLayersFromMap s
    let s1 := p1.1
    match s1.map with
    | none => (s1, p1.2)
    | some e =>
      let p2 := addRoutes 0 routes e s1.activeRouteHandlers
      ({ s1 with map := some p2.1, activeRouteHandlers := p2.2.1 }, p1.2 ++ p2.2.2)

/-! ## Route search (`searchBusRoutes`) -/

structure RouteRequest where
  startLoc : String
  endLoc : String
  mode : String
deriving DecidableEq, Repr

/-- Outcome of the single awaited `fetch('/api/routes/search')`. -/
inductive FetchOutcome where
  | ok (routes : List ClientRoute)
  | httpError
  | networkError
deriving DecidableEq, Repr

/-- `map.fitBounds([[sw.lng, sw.lat], [ne.lng, ne.lat]], {padding: 50})`. -/
def fitBoundsOnMap (b : BoundsBox) (s : CState) : CState :=
  match s.map with
  | none => s
  | some e =>
    { s with map := some { e with
        lastFit := some (b.southwest.lng, b.southwest.lat, b.northeast.lng, b.northeast.lat) } }

/-- `searchBusRoutes()`, parameterised by the outcome of the awaited request.
Returns the resulting state and the request issued (if any). -/
def searchBusRoutes (resp : FetchOutcome) (s : CState) : CState × Option RouteRequest :=
  if jsTrim s.startLocation = "" || jsTrim s.endLocation = "" then
    (s, none)
  else
    let req : RouteRequest := ⟨s.startLocation, s.endLocation, "transit"⟩
    let s1 := { s with isLoadingRoute := true, routeResults := ([] : List ClientRoute) }
    match resp with
    | FetchOutcome.ok routes =>
      let s2 := { s1 with routeResults := routes }
      let s3 :=
        if routes.length > 0 then
          let sa := (displayRoutesOnMap routes s2).1
          match routes with
          | [] => sa
          | r0 :: _ =>
            match r0.bounds with
            | some b => fitBoundsOnMap b sa
            | none => sa
        else s2
      ({ s3 with isLoadingRoute := false }, some req)
    | FetchOutcome.httpError => ({ s1 with isLoadingRoute := false }, some req)
    | FetchOutcome.networkError => ({ s1 with isLoadingRoute := false }, some req)

/-! ## Picking clicks and keyboard handling -/

/-- The display text `` `${lat.toFixed(4)}, ${lng.toFixed(4)}` ``. -/
def coordDisplayText (c : Coord) : String :=
  toFixed4 c.lat ++ ", " ++ toFixed4 c.lng

/-- `handleLocationClick(e)`: in a picking mode, store the clicked coordinates,
set the display text, place the endpoint marker, and leave picking mode. -/
def handleLocationClick (c : Coord) (s : CState) : CState :=
  match s.clickMode with
  | ClickMode.cstart =>
    let s1 := { s with startCoords := some c, startLocation := coordDisplayText c }
    let s2 := addStartMarker c s1
    { s2 with clickMode := ClickMode.cnone }
  | ClickMode.cend =>
    let s1 := { s with endCoords := some c, endLocation := coordDisplayText c }
    let s2 := addEndMarker c s1
    { s2 with clickMode := ClickMode.cnone }
  | ClickMode.cnone => s

/-- `resetView()`: fly back to the default center and zoom. -/
def resetView (s : CState) : CState :=
  match s.map with
  | none => s
  | some e =>
    { s with map := some { e with
        lastFly := some (mkRat (-6337) 10000, mkRat 356976 10000, 12) } }

/-- `handleKeyDown`: the four independent key branches of the keyboard effect. -/
def handleKeyDown (key : String) (s : CState) : CState :=
  let s1 :=
    if key = "Escape" then
      let a := { s with showInfoPanel := false, showRoutePanel := false }
      let b := (clearRouteLayersFromMap a).1
      { b with routeResults := ([] : List ClientRoute), clickMode := ClickMode.cnone }
    else s
  let s2 := if key = "i" || key = "I" then { s1 with showInfoPanel := !s1.showInfoPanel } else s1
  let s3 := if key = "b" || key = "B" then { s2 with showRoutePanel := !s2.showRoutePanel } else s2
  if key = "r" || key = "R" then resetView s3 else s3

/-! ## Picking-mode toggle buttons -/

inductive EndpointKind where
  | kstart
  | kend
deriving DecidableEq, Repr

/-- The picking mode corresponding to an endpoint kind. -/
def pickModeOf : EndpointKind → ClickMode
  | EndpointKind.kstart => ClickMode.cstart
  | EndpointKind.kend => ClickMode.cend

/-- The two toggle buttons:
`setClickMode(clickMode === 'start' ? 'none' : 'start')` and
`setClickMode(clickMode === 'end' ? 'none' : 'end')`. -/
def togglePick (k : EndpointKind) (m : ClickMode) : ClickMode :=
  match k with
  | EndpointKind.kstart => if m = ClickMode.cstart then ClickMode.cnone else ClickMode.cstart
  | EndpointKind.kend => if m = ClickMode.cend then ClickMode.cnone else ClickMode.cend

/-! ## The `[clickMode]` effect: binding of the picking click handler

Each render creates a fresh `handleLocationClick` closure, identified here by
a counter.  On a `clickMode` change React first runs the previous effect's
cleanup (which unbinds the handler of the render that bound it), then the new
effect body: it unbinds the current render's handler (a no-op, that closure
was never bound) and binds it when the new mode is a picking mode. -/

structure PickBindState where
  renderId : ℕ
  bound : List ℕ
deriving DecidableEq, Repr

inductive BindEvent where
  | unbind (h : ℕ)
  | bind (h : ℕ)
deriving DecidableEq, Repr

/-- `map.off('click', fn)`: remove a specific listener. -/
def offHandler (h : ℕ) (l : List ℕ) : List ℕ := l.filter (fun x => decide (x ≠ h))

/-- One run of the `[clickMode]` effect (cleanup of the previous run, then the
body).  Returns the new state, the intermediate engine binding lists (after
cleanup, after the body's unbind, after the bind if any), and the bind/unbind
event trace. -/
def clickModeEffect (s : PickBindState) (m : ClickMode) :
    PickBindState × List (List ℕ) × List BindEvent :=
  let b1 := offHandler s.renderId s.bound
  let h := s.renderId + 1
  let b2 := offHandler h b1
  if m = ClickMode.cnone then
    (⟨h, b2⟩, [b1, b2], [BindEvent.unbind s.renderId, BindEvent.unbind h])
  else
    (⟨h, b2 ++ [h]⟩, [b1, b2, b2 ++ [h]],
     [BindEvent.unbind s.renderId, BindEvent.unbind h, BindEvent.bind h])

/-- Run a sequence of `clickMode` changes, collecting every intermediate
engine binding list. -/
def runClickModes (s : PickBindState) : List ClickMode → PickBindState × List (List ℕ)
  | [] => (s, [])
  | m :: ms =>
    let p := clickModeEffect s m
    let rest := runClickModes p.1 ms
    (rest.1, p.2.1 ++ rest.2)

/-- Initial state: on mount no picking handler is bound. -/
def initPickBind : PickBindState := ⟨0, []⟩

/-! ## Marker creation schema and POST /api/markers -/

/-- A `POST /api/markers` body as seen by `insertMarkerSchema`: each field is
present (`some`, already of the right primitive type) or absent.  A body with
a wrong-typed field is rejected by zod before the presence and length checks
modelled here and lies outside this input type. -/
structure InsertMarkerInput where
  title : Option String
  description : Option String
  latitude : Option ℚ
  longitude : Option ℚ
  color : Option String
deriving DecidableEq, Repr

structure InsertMarker where
  title : String
  description : Option String
  latitude : ℚ
  longitude : ℚ
  color : Option String
deriving DecidableEq, Repr

/-- The `.max(7)` length constraint drizzle-zod derives for the
`varchar("color", { length: 7 })` column: a present color string may hold at
most 7 characters. -/
def colorLenOk : Option String → Bool
  | none => true
  | some c => decide (c.length ≤ 7)

/-- `insertMarkerSchema = createInsertSchema(markers).omit({id, createdAt})`:
`title`, `latitude` and `longitude` are required (`notNull` columns without
defaults); `description` and `color` are optional; `color`, when present, is
bounded to 7 characters (the `varchar(7)` length).  No range constraint is
placed on `latitude` or `longitude` — they are plain numbers. -/
def insertMarkerSchema (b : InsertMarkerInput) : Option InsertMarker :=
  match b.title, b.latitude, b.longitude with
  | some t, some la, some lo =>
    if colorLenOk b.color then some ⟨t, b.description, la, lo, b.color⟩ else none
  | _, _, _ => none

inductive PostMarkersResult where
  | created (m : InsertMarker)
  | badRequest
deriving DecidableEq, Repr

/-- The `POST /api/markers` handler: parse the body with `insertMarkerSchema`;
on success persist the record and answer 201, on a schema error answer 400.
Second component: the record that reaches persistence, if any. -/
def postMarkers (b : InsertMarkerInput) : PostMarkersResult × Option InsertMarker :=
  match insertMarkerSchema b with
  | some m => (PostMarkersResult.created m, some m)
  | none => (PostMarkersResult.badRequest, none)

/-! ## The mocked POST /api/routes/search payload -/

/-- The fixed `mockRoutes` array returned by `POST /api/routes/search`
(parameterised by the request's `end` string, which is spliced into two
step instructions).  Neither route carries a `geometry` field. -/
def mockRoutes (endLoc : String) : List ServerRoute :=
  [ { duration := "45 min"
      distance := "12.5 km"
      steps :=
        [ ⟨"Walk to Arrêt Université", some "150m", some "2 min", none⟩,
          ⟨"Take Bus Line 12 towards Centre Ville", some "8.2km", some "25 min",
            some ⟨"Line 12", "Bus", "Arrêt Place d'Armes"⟩⟩,
          ⟨"Transfer to Bus Line 6", some "50m", some "1 min", none⟩,
          ⟨"Take Bus Line 6 towards " ++ endLoc, some "3.8km", some "15 min",
            some ⟨"Line 6", "Bus", endLoc⟩⟩,
          ⟨"Walk to destination", some "200m", some "2 min", none⟩ ]
      bounds := some ⟨⟨mkRat 3569 100, mkRat (-65) 100⟩, ⟨mkRat 3570500 100000, mkRat (-62) 100⟩⟩ },
    { duration := "52 min"
      distance := "14.2 km"
      steps :=
        [ ⟨"Walk to Arrêt Faculté", some "200m", some "3 min", none⟩,
          ⟨"Take Tram Line 1 towards Senia", some "10.5km", some "30 min",
            some ⟨"Line 1", "Tram", "Arrêt République"⟩⟩,
          ⟨"Transfer to Bus Line 8", some "100m", some "2 min", none⟩,
          ⟨"Take Bus Line 8 towards " ++ endLoc, some "3.5km", some "15 min",
            some ⟨"Line 8", "Bus", endLoc⟩⟩,
          ⟨"Walk to destination", some "150m", some "2 min", none⟩ ]
      bounds := some ⟨⟨mkRat 3569 100, mkRat (-65) 100⟩, ⟨mkRat 3570500 100000, mkRat (-62) 100⟩⟩ } ]

/-! ## Event-kind predicates -/

def isOffEvent : EngEvent → Bool
  | EngEvent.offEv _ _ => true
  | _ => false

def isRemoveLayerEvent : EngEvent → Bool
  | EngEvent.removeLayer _ => true
  | _ => false

def isRemoveSourceEvent : EngEvent → Bool
  | EngEvent.removeSource _ => true
  | _ => false

def isAddEvent : EngEvent → Bool
  | EngEvent.addSource _ => true
  | EngEvent.addLayer _ => true
  | EngEvent.onEv _ _ => true
  | _ => false

/-! ## Properties of the clearing phases -/

theorem offLayerHandlers_spec : ∀ (l : List String) (e : Engine),
    (offLayerHandlers l e).1.layers = e.layers ∧
    (offLayerHandlers l e).1.sources = e.sources ∧
    (offLayerHandlers l e).1.markers = e.markers ∧
    (offLayerHandlers l e).1.nextMarkerId = e.nextMarkerId ∧
    (offLayerHandlers l e).1.lastFit = e.lastFit ∧
    (offLayerHandlers l e).1.lastFly = e.lastFly ∧
    (∀ ev ∈ (offLayerHandlers l e).2, isOffEvent ev = true) := by
  intro l
  induction l with
  | nil => intro e; simp [offLayerHandlers]
  | cons lid rest ih =>
    intro e
    by_cases h : lid ∈ e.layers
    · simp only [offLayerHandlers, if_pos h]
      obtain ⟨h1, h2, h3, h4, h5, h6, h7⟩ := ih _
      refine ⟨h1, h2, h3, h4, h5, h6, ?_⟩
      intro ev hev
      simp only [List.mem_cons] at hev
      rcases hev with rfl | rfl | rfl | hev
      · rfl
      · rfl
      · rfl
      · exact h7 ev hev
    · simp only [offLayerHandlers, if_neg h]
      exact ih e

theorem removeMatching_spec (mk : String → EngEvent) (p : String) :
    ∀ (snap cur : List String), snap.Nodup → cur.Nodup → (∀ x ∈ snap, x ∈ cur) →
      (removeMatching mk p snap cur).1 =
        cur.filter (fun x => !(startsWithB x p && decide (x ∈ snap))) ∧
      (removeMatching mk p snap cur).2 =
        (snap.filter (fun x => startsWithB x p)).map mk := by
  intro snap
  induction snap with
  | nil =>
    intro cur _ _ _
    constructor
    · simp [removeMatching]
    · simp [removeMatching]
  | cons id snap ih =>
    intro cur hns hnc hsub
    have hid : id ∈ cur := hsub id (List.mem_cons_self id snap)
    have hnotin : id ∉ snap := (List.nodup_cons.mp hns).1
    have hsnodup : snap.Nodup := (List.nodup_cons.mp hns).2
    by_cases hsw : startsWithB id p = true
    · have hcond : startsWithB id p ∧ id ∈ cur := ⟨hsw, hid⟩
      have hsub' : ∀ x ∈ snap, x ∈ cur.erase id := by
        intro x hx
        have hxne : x ≠ id := fun hxe => hnotin (hxe ▸ hx)
        exact (List.mem_erase_of_ne hxne).mpr (hsub x (List.mem_cons_of_mem id hx))
      obtain ⟨ih1, ih2⟩ := ih (cur.erase id) hsnodup (hnc.erase id) hsub'
      constructor
      · simp only [removeMatching, if_pos hcond, ih1]
        rw [List.Nodup.erase_eq_filter hnc id]
        rw [List.filter_filter]
        apply List.filter_congr
        intro x _
        by_cases hxi : x = id
        · subst hxi
          simp [hsw]
        · simp [hxi, List.mem_cons]
      · simp only [removeMatching, if_pos hcond, ih2]
        simp [List.filter_cons, hsw]
    · have hcond : ¬(startsWithB id p ∧ id ∈ cur) := fun hc => hsw hc.1
      have hsub' : ∀ x ∈ snap, x ∈ cur := fun x hx => hsub x (List.mem_cons_of_mem id hx)
      obtain ⟨ih1, ih2⟩ := ih cur hsnodup hnc hsub'
      constructor
      · simp only [removeMatching, if_neg hcond, ih1]
        apply List.filter_congr
        intro x _
        by_cases hxi : x = id
        · subst hxi
          simp [Bool.not_eq_true] at hsw
          simp [hsw]
        · simp [hxi, List.mem_cons]
      · simp only [removeMatching, if_neg hcond, ih2]
        simp [List.filter_cons, hsw]

/-- The clearing fold at `snap = cur` (the source snapshots the style's own
id list): every id with the prefix is removed, nothing else changes. -/
theorem removeMatching_self (mk : String → EngEvent) (p : String)
    (cur : List String) (hnc : cur.Nodup) :
    (removeMatching mk p cur cur).1 = cur.filter (fun x => !startsWithB x p) ∧
    (removeMatching mk p cur cur).2 =
      (cur.filter (fun x => startsWithB x p)).map mk := by
  obtain ⟨h1, h2⟩ := removeMatching_spec mk p cur cur hnc hnc (fun x hx => hx)
  refine ⟨?_, h2⟩
  rw [h1]
  apply List.filter_congr
  intro x hx
  simp [hx]

/-! ## Derived overlay ids are injective and carry their prefixes -/

theorem routeLayerId_inj {a b : ℕ} (h : routeLayerId a = routeLayerId b) : a = b :=
  natStr_inj a b (append_left_cancel_str h)

theorem routeSourceId_inj {a b : ℕ} (h : routeSourceId a = routeSourceId b) : a = b :=
  natStr_inj a b (append_left_cancel_str h)

theorem routeLayerId_sw (i : ℕ) : startsWithB (routeLayerId i) rlPre = true :=
  startsWithB_append rlPre (natStr i)

theorem routeSourceId_sw (i : ℕ) : startsWithB (routeSourceId i) rsPre = true :=
  startsWithB_append rsPre (natStr i)

/-! ## `geomIndicesFrom` facts -/

theorem geomIndicesFrom_ge : ∀ (rs : List ClientRoute) (i j : ℕ),
    j ∈ geomIndicesFrom i rs → i ≤ j := by
  intro rs
  induction rs with
  | nil => intro i j h; simp [geomIndicesFrom] at h
  | cons r rs ih =>
    intro i j h
    by_cases hg : hasGeom r = true
    · simp only [geomIndicesFrom, if_pos hg, List.mem_cons] at h
      rcases h with rfl | h
      · exact le_refl j
      · exact le_of_lt (lt_of_lt_of_le (Nat.lt_succ_self i) (ih (i+1) j h))
    · simp only [geomIndicesFrom, if_neg hg] at h
      exact le_of_lt (lt_of_lt_of_le (Nat.lt_succ_self i) (ih (i+1) j h))

theorem geomIndicesFrom_nodup : ∀ (rs : List ClientRoute) (i : ℕ),
    (geomIndicesFrom i rs).Nodup := by
  intro rs
  induction rs with
  | nil => intro i; simp [geomIndicesFrom]
  | cons r rs ih =>
    intro i
    by_cases hg : hasGeom r = true
    · simp only [geomIndicesFrom, if_pos hg, List.nodup_cons]
      refine ⟨fun hmem => ?_, ih (i+1)⟩
      have := geomIndicesFrom_ge rs (i+1) i hmem
      omega
    · simp only [geomIndicesFrom, if_neg hg]
      exact ih (i+1)

/-! ## The add phase of `displayRoutesOnMap` -/

theorem addRoutes_spec : ∀ (rs : List ClientRoute) (i : ℕ) (e : Engine) (act : List String),
    (∀ l ∈ e.layers, startsWithB l rlPre = true → ∃ j, j < i ∧ l = routeLayerId j) →
    (∀ l ∈ e.sources, startsWithB l rsPre = true → ∃ j, j < i ∧ l = routeSourceId j) →
    (addRoutes i rs e act).1.layers = e.layers ++ (geomIndicesFrom i rs).map routeLayerId ∧
    (addRoutes i rs e act).1.sources = e.sources ++ (geomIndicesFrom i rs).map routeSourceId ∧
    (addRoutes i rs e act).2.1 = act ++ (geomIndicesFrom i rs).map routeLayerId ∧
    (addRoutes i rs e act).1.markers = e.markers ∧
    (addRoutes i rs e act).1.nextMarkerId = e.nextMarkerId ∧
    (addRoutes i rs e act).1.lastFit = e.lastFit ∧
    (addRoutes i rs e act).1.lastFly = e.lastFly ∧
    (∀ ev ∈ (addRoutes i rs e act).2.2, isAddEvent ev = true) := by
  intro rs
  induction rs with
  | nil =>
    intro i e act _ _
    simp [addRoutes, geomIndicesFrom]
  | cons r rs ih =>
    intro i e act hlay hsrc
    by_cases hg : hasGeom r = true
    · have hsnot : routeSourceId i ∉ e.sources := by
        intro hmem
        obtain ⟨j, hj, hje⟩ := hsrc _ hmem (routeSourceId_sw i)
        exact absurd (routeSourceId_inj hje.symm) (by omega)
      have hlnot : routeLayerId i ∉ e.layers := by
        intro hmem
        obtain ⟨j, hj, hje⟩ := hlay _ hmem (routeLayerId_sw i)
        exact absurd (routeLayerId_inj hje.symm) (by omega)
      have hlay' : ∀ l ∈ e.layers ++ [routeLayerId i],
          startsWithB l rlPre = true → ∃ j, j < i + 1 ∧ l = routeLayerId j := by
        intro l hl hswl
        rcases List.mem_append.mp hl with hl | hl
        · obtain ⟨j, hj, hje⟩ := hlay l hl hswl
          exact ⟨j, by omega, hje⟩
        · simp only [List.mem_singleton] at hl
          exact ⟨i, by omega, hl⟩
      have hsrc' : ∀ l ∈ e.sources ++ [routeSourceId i],
          startsWithB l rsPre = true → ∃ j, j < i + 1 ∧ l = routeSourceId j := by
        intro l hl hswl
        rcases List.mem_append.mp hl with hl | hl
        · obtain ⟨j, hj, hje⟩ := hsrc l hl hswl
          exact ⟨j, by omega, hje⟩
        · simp only [List.mem_singleton] at hl
          exact ⟨i, by omega, hl⟩
      obtain ⟨ih1, ih2, ih3, ih4, ih5, ih6, ih7, ih8⟩ :=
        ih (i+1)
          { e with
              sources := e.sources ++ [routeSourceId i]
              layers := e.layers ++ [routeLayerId i]
              handlers := e.handlers ++
                [("click", routeLayerId i), ("mouseenter", routeLayerId i),
                 ("mouseleave", routeLayerId i)] }
          (act ++ [routeLayerId i]) hlay' hsrc'
      simp only [addRoutes, if_pos hg, if_neg hsnot, if_neg hlnot]
      simp only [geomIndicesFrom, if_pos hg, List.map_cons]
      refine ⟨?_, ?_, ?_, ?_, ?_, ?_, ?_, ?_⟩
      · simp only [ih1]
        simp [List.append_assoc]
      · simp only [ih2]
        simp [List.append_assoc]
      · simp only [ih3]
        simp [List.append_assoc]
      · simpa using ih4
      · simpa using ih5
      · simpa using ih6
      · simpa using ih7
      · intro ev hev
        simp only [List.mem_append, List.mem_cons, List.not_mem_nil, or_false] at hev
        rcases hev with (rfl | rfl | rfl | rfl | rfl) | hev
        · rfl
        · rfl
        · rfl
        · rfl
        · rfl
        · exact ih8 ev hev
    · have hlay' : ∀ l ∈ e.layers,
          startsWithB l rlPre = true → ∃ j, j < i + 1 ∧ l = routeLayerId j := by
        intro l hl hswl
        obtain ⟨j, hj, hje⟩ := hlay l hl hswl
        exact ⟨j, by omega, hje⟩
      have hsrc' : ∀ l ∈ e.sources,
          startsWithB l rsPre = true → ∃ j, j < i + 1 ∧ l = routeSourceId j := by
        intro l hl hswl
        obtain ⟨j, hj, hje⟩ := hsrc l hl hswl
        exact ⟨j, by omega, hje⟩
      simp only [addRoutes, if_neg hg]
      simp only [geomIndicesFrom, if_neg hg]
      exact ih (i+1) e act hlay' hsrc'

/-! ## Characterisation of `clearRouteLayersFromMap` -/

theorem clearRouteLayersFromMap_spec (s : CState) (e : Engine)
    (hm : s.map = some e) (hl : e.layers.Nodup) (hs : e.sources.Nodup) :
    ∃ e₁, (clearRouteLayersFromMap s).1 =
        { s with map := some e₁, activeRouteHandlers := [] } ∧
      e₁.layers = e.layers.filter (fun x => !startsWithB x rlPre) ∧
      e₁.sources = e.sources.filter (fun x => !startsWithB x rsPre) ∧
      e₁.markers = e.markers ∧ e₁.nextMarkerId = e.nextMarkerId ∧
      e₁.lastFit = e.lastFit ∧ e₁.lastFly = e.lastFly ∧
      ∃ t1 t2 t3, (clearRouteLayersFromMap s).2 = t1 ++ t2 ++ t3 ∧
        (∀ ev ∈ t1, isOffEvent ev = true) ∧
        (∀ ev ∈ t2, isRemoveLayerEvent ev = true) ∧
        (∀ ev ∈ t3, isRemoveSourceEvent ev = true) := by
  obtain ⟨o1, o2, o3, o4, o5, o6, o7⟩ := offLayerHandlers_spec s.activeRouteHandlers e
  have hl1 : (offLayerHandlers s.activeRouteHandlers e).1.layers.Nodup := by
    rw [o1]; exact hl
  obtain ⟨r1a, r1b⟩ := removeMatching_self EngEvent.removeLayer rlPre
    (offLayerHandlers s.activeRouteHandlers e).1.layers hl1
  have hs1 : (offLayerHandlers s.activeRouteHandlers e).1.sources.Nodup := by
    rw [o2]; exact hs
  obtain ⟨r2a, r2b⟩ := removeMatching_self EngEvent.removeSource rsPre
    (offLayerHandlers s.activeRouteHandlers e).1.sources hs1
  rw [o1] at r1a
  rw [o2] at r2a
  simp only [clearRouteLayersFromMap, hm]
  refine ⟨_, rfl, ?_, ?_, ?_, ?_, ?_, ?_, ?_⟩
  · rw [o1]
    exact r1a
  · rw [o2]
    exact r2a
  · exact o3
  · exact o4
  · exact o5
  · exact o6
  · refine ⟨(offLayerHandlers s.activeRouteHandlers e).2, _, _, rfl, o7, ?_, ?_⟩
    · intro ev hev
      rw [r1b] at hev
      obtain ⟨x, _, rfl⟩ := List.mem_map.mp hev
      rfl
    · intro ev hev
      rw [r2b] at hev
      obtain ⟨x, _, rfl⟩ := List.mem_map.mp hev
      rfl

/-! ## Characterisation of `displayRoutesOnMap` -/

theorem displayRoutesOnMap_spec (routes : List ClientRoute) (s : CState) (e : Engine)
    (hm : s.map = some e) (hl : e.layers.Nodup) (hs : e.sources.Nodup) :
    ∃ e', (displayRoutesOnMap routes s).1 =
        { s with map := some e',
                 activeRouteHandlers := (geomIndices routes).map routeLayerId } ∧
      e'.layers = e.layers.filter (fun x => !startsWithB x rlPre) ++
        (geomIndices routes).map routeLayerId ∧
      e'.sources = e.sources.filter (fun x => !startsWithB x rsPre) ++
        (geomIndices routes).map routeSourceId ∧
      e'.markers = e.markers ∧ e'.nextMarkerId = e.nextMarkerId ∧
      e'.lastFit = e.lastFit ∧ e'.lastFly = e.lastFly ∧
      e'.layers.Nodup ∧ e'.sources.Nodup ∧
      ∃ t1 t2 t3 t4, (displayRoutesOnMap routes s).2 = t1 ++ t2 ++ t3 ++ t4 ∧
        (∀ ev ∈ t1, isOffEvent ev = true) ∧
        (∀ ev ∈ t2, isRemoveLayerEvent ev = true) ∧
        (∀ ev ∈ t3, isRemoveSourceEvent ev = true) ∧
        (∀ ev ∈ t4, isAddEvent ev = true) := by
  obtain ⟨e1, hc1, hcl, hcs, hcm, hcn, hcf, hcy, t1, t2, t3, hct, hk1, hk2, hk3⟩ :=
    clearRouteLayersFromMap_spec s e hm hl hs
  have hlay0 : ∀ l ∈ e1.layers, startsWithB l rlPre = true → ∃ j, j < 0 ∧ l = routeLayerId j := by
    intro l hml hswl
    rw [hcl] at hml
    have := (List.mem_filter.mp hml).2
    simp [hswl] at this
  have hsrc0 : ∀ l ∈ e1.sources, startsWithB l rsPre = true → ∃ j, j < 0 ∧ l = routeSourceId j := by
    intro l hml hswl
    rw [hcs] at hml
    have := (List.mem_filter.mp hml).2
    simp [hswl] at this
  obtain ⟨a1, a2, a3, a4, a5, a6, a7, a8⟩ := addRoutes_spec routes 0 e1 [] hlay0 hsrc0
  have hmapNodup : ((geomIndicesFrom 0 routes).map routeLayerId).Nodup :=
    (geomIndicesFrom_nodup routes 0).map (fun a b h => routeLayerId_inj h)
  have hmapNodupS : ((geomIndicesFrom 0 routes).map routeSourceId).Nodup :=
    (geomIndicesFrom_nodup routes 0).map (fun a b h => routeSourceId_inj h)
  have hlNodup : (addRoutes 0 routes e1 []).1.layers.Nodup := by
    rw [a1, hcl]
    rw [List.nodup_append]
    refine ⟨hl.filter _, hmapNodup, ?_⟩
    intro a ha hb
    have h1 := (List.mem_filter.mp ha).2
    obtain ⟨j, _, rfl⟩ := List.mem_map.mp hb
    rw [routeLayerId_sw j] at h1
    simp at h1
  have hsNodup : (addRoutes 0 routes e1 []).1.sources.Nodup := by
    rw [a2, hcs]
    rw [List.nodup_append]
    refine ⟨hs.filter _, hmapNodupS, ?_⟩
    intro a ha hb
    have h1 := (List.mem_filter.mp ha).2
    obtain ⟨j, _, rfl⟩ := List.mem_map.mp hb
    rw [routeSourceId_sw j] at h1
    simp at h1
  have hs1map : ((clearRouteLayersFromMap s).1).map = some e1 := by rw [hc1]
  have hs1act : ((clearRouteLayersFromMap s).1).activeRouteHandlers = [] := by rw [hc1]
  simp only [displayRoutesOnMap, hm]
  rw [hc1]
  dsimp only
  refine ⟨(addRoutes 0 routes e1 []).1, ?_, ?_, ?_, ?_, ?_, ?_, ?_, hlNodup, hsNodup, ?_⟩
  · rw [a3]
    simp [geomIndices]
  · rw [a1, hcl, geomIndices]
  · rw [a2, hcs, geomIndices]
  · rw [a4, hcm]
  · rw [a5, hcn]
  · rw [a6, hcf]
  · rw [a7, hcy]
  · refine ⟨t1, t2, t3, (addRoutes 0 routes e1 []).2.2, ?_, hk1, hk2, hk3, a8⟩
    rw [hct]

/-! ## Concrete fixtures -/

/-- A freshly initialised engine: no layers, sources, handlers or markers. -/
def engineEmpty : Engine := ⟨[], [], [], [], 0, none, none⟩

/-- A route carrying no `geometry` field. -/
def noGeomRoute : ClientRoute := ⟨none, "10 min", "1 km", [], none⟩

def c3state : CState :=
  ⟨some engineEmpty, ClickMode.cnone, "A", "  ", none, none, none, none, [], false, [],
    false, false⟩

def c4state : CState :=
  ⟨some engineEmpty, ClickMode.cnone, "A", "B", none, none, none, none, [noGeomRoute],
    false, [], false, false⟩

/-! ## C6: requesting the active picking mode toggles back to idle -/

/-- **C6.** Requesting the picking mode that is already active is a toggle back
to Idle: for every endpoint kind `k`, the toggle button's transition maps the
mode that is already picking `k` to `'none'`. -/
theorem claim6_toggle_active_returns_idle :
    ∀ k : EndpointKind, togglePick k (pickModeOf k) = ClickMode.cnone := by
  intro k
  cases k <;> rfl

/-! ## C9: `clearLocationMarkers` is idempotent -/

/-- **C9.** `clearLocationMarkers` is idempotent: applying it twice to any
component state produces exactly the state of applying it once. -/
theorem claim9_clearLocationMarkers_idem (s : CState) :
    clearLocationMarkers (clearLocationMarkers s) = clearLocationMarkers s := by
  obtain ⟨mapf, cm, sl, el, sc, ec, smk, emk, rr, lr, arh, sip, srp⟩ := s
  cases smk <;> cases emk <;> simp [clearLocationMarkers]

/-! ## C3: empty endpoint text means no request -/

/-- **C3.** If either endpoint's display text is empty or whitespace-only,
`searchBusRoutes` performs no state change and issues no request to the
route-search boundary (the guard logs a validation warning and returns). -/
theorem claim3_empty_input_no_request (s : CState) (resp : FetchOutcome)
    (h : jsTrim s.startLocation = "" ∨ jsTrim s.endLocation = "") :
    searchBusRoutes resp s = (s, none) := by
  rcases h with h | h <;> simp [searchBusRoutes, h]

theorem claim3_witness :
    (jsTrim c3state.startLocation = "" ∨ jsTrim c3state.endLocation = "") ∧
      searchBusRoutes FetchOutcome.httpError c3state = (c3state, none) :=
  ⟨Or.inr (by decide),
    claim3_empty_input_no_request c3state FetchOutcome.httpError (Or.inr (by decide))⟩

/-! ## C8: out-of-range coordinates are **not** rejected by the schema -/

def c8badInput : InsertMarkerInput := ⟨some "Test", none, some (mkRat 200 1), some 0, none⟩

/-- **C8 counterexample.** A marker-create body with latitude `200`
(outside `[-90, 90]`) is *not* rejected by `insertMarkerSchema`: the handler
answers 201 and the record reaches persistence. -/
theorem claim8_counterexample :
    (postMarkers c8badInput).1 ≠ PostMarkersResult.badRequest ∧
    (postMarkers c8badInput).2 = some ⟨"Test", none, mkRat 200 1, 0, none⟩ := by
  constructor
  · intro h
    simp [postMarkers, insertMarkerSchema, colorLenOk, c8badInput] at h
  · rfl

/-- **C8 (amended).** Schema validation places no range constraint on
`latitude` or `longitude`: a marker-create body whose `title`, `latitude` and
`longitude` are present (and whose `color`, when present, is within the
`varchar(7)` length) passes `insertMarkerSchema` and reaches persistence with
a 201 whatever the coordinate values — in particular a latitude outside
`[-90, 90]` or a longitude outside `[-180, 180]` is not rejected. -/
theorem claim8_amended (b : InsertMarkerInput) (t : String) (la lo : ℚ)
    (ht : b.title = some t) (hla : b.latitude = some la) (hlo : b.longitude = some lo)
    (hc : colorLenOk b.color = true) :
    (postMarkers b).1 = PostMarkersResult.created ⟨t, b.description, la, lo, b.color⟩ ∧
    (postMarkers b).2 = some ⟨t, b.description, la, lo, b.color⟩ := by
  simp [postMarkers, insertMarkerSchema, ht, hla, hlo, hc]

theorem claim8_witness :
    c8badInput.title = some "Test" ∧ c8badInput.latitude = some (mkRat 200 1) ∧
    c8badInput.longitude = some (0 : ℚ) ∧ colorLenOk c8badInput.color = true ∧
    ((postMarkers c8badInput).1 =
        PostMarkersResult.created ⟨"Test", none, mkRat 200 1, 0, none⟩ ∧
      (postMarkers c8badInput).2 = some ⟨"Test", none, mkRat 200 1, 0, none⟩) :=
  ⟨rfl, rfl, rfl, by decide,
    claim8_amended c8badInput "Test" (mkRat 200 1) 0 rfl rfl rfl (by decide)⟩

/-! ## C4: behaviour of a failed or empty route search -/

/-- **C4 counterexample.** A failed search does *not* leave the previously
stored route results unchanged: `searchBusRoutes` resets `routeResults` to
`[]` before issuing the request, so after a network error the stored results
are empty even though they were nonempty before. -/
theorem claim4_counterexample :
    (searchBusRoutes FetchOutcome.networkError c4state).1.routeResults ≠
      c4state.routeResults := by
  decide

/-- **C4 (amended).** When a route search fails (network error or non-2xx
response) or returns an empty body, the loading flag is cleared and the
engine — hence every previously rendered route overlay — is left unchanged,
but the stored route results end up empty (they are cleared when the search
starts, not restored on error); exactly one request is issued. -/
theorem claim4_amended (s : CState) (resp : FetchOutcome)
    (h1 : ¬ jsTrim s.startLocation = "") (h2 : ¬ jsTrim s.endLocation = "")
    (hfail : resp = FetchOutcome.httpError ∨ resp = FetchOutcome.networkError ∨
      resp = FetchOutcome.ok []) :
    (searchBusRoutes resp s).1.isLoadingRoute = false ∧
    (searchBusRoutes resp s).1.map = s.map ∧
    (searchBusRoutes resp s).1.routeResults = [] ∧
    (searchBusRoutes resp s).2 = some ⟨s.startLocation, s.endLocation, "transit"⟩ := by
  rcases hfail with rfl | rfl | rfl <;> simp [searchBusRoutes, h1, h2]

theorem claim4_witness :
    (¬ jsTrim c4state.startLocation = "") ∧ (¬ jsTrim c4state.endLocation = "") ∧
    ((searchBusRoutes FetchOutcome.networkError c4state).1.isLoadingRoute = false ∧
      (searchBusRoutes FetchOutcome.networkError c4state).1.map = c4state.map ∧
      (searchBusRoutes FetchOutcome.networkError c4state).1.routeResults = [] ∧
      (searchBusRoutes FetchOutcome.networkError c4state).2 =
        some ⟨c4state.startLocation, c4state.endLocation, "transit"⟩) :=
  ⟨by decide, by decide,
    claim4_amended c4state FetchOutcome.networkError (by decide) (by decide)
      (Or.inr (Or.inl rfl))⟩

/-! ## C1: at most one picking click handler is ever bound -/

/-- Invariant of the `[clickMode]` effect: the engine's map-level picking
click listeners are either empty or exactly the current render's handler. -/
def pickInv (s : PickBindState) : Prop := s.bound = [] ∨ s.bound = [s.renderId]

theorem clickModeEffect_stages (s : PickBindState) (m : ClickMode) (h : pickInv s) :
    (∀ st ∈ (clickModeEffect s m).2.1, st.length ≤ 1) ∧ pickInv (clickModeEffect s m).1 := by
  have hb1 : offHandler s.renderId s.bound = [] := by
    rcases h with h | h <;> simp [offHandler, h]
  have hb2 : ∀ k : ℕ, offHandler k ([] : List ℕ) = [] := fun _ => rfl
  by_cases hm : m = ClickMode.cnone
  · constructor
    · intro st hst
      simp only [clickModeEffect, if_pos hm, hb1, hb2, List.mem_cons,
        List.not_mem_nil, or_false] at hst
      rcases hst with rfl | rfl <;> simp
    · simp [clickModeEffect, hm, hb1, hb2, pickInv]
  · constructor
    · intro st hst
      simp only [clickModeEffect, if_neg hm, hb1, hb2, List.mem_cons,
        List.not_mem_nil, or_false] at hst
      rcases hst with rfl | rfl | rfl <;> simp
    · simp [clickModeEffect, hm, hb1, hb2, pickInv]

theorem runClickModes_inv (ms : List ClickMode) : ∀ s, pickInv s →
    pickInv (runClickModes s ms).1 ∧ ∀ st ∈ (runClickModes s ms).2, st.length ≤ 1 := by
  induction ms with
  | nil =>
    intro s h
    exact ⟨h, by simp [runClickModes]⟩
  | cons m ms ih =>
    intro s h
    obtain ⟨h1, h2⟩ := clickModeEffect_stages s m h
    obtain ⟨ih1, ih2⟩ := ih (clickModeEffect s m).1 h2
    constructor
    · simpa [runClickModes] using ih1
    · intro st hst
      simp only [runClickModes, List.mem_append] at hst
      rcases hst with hst | hst
      · exact h1 st hst
      · exact ih2 st hst

/-- **C1.** For every sequence of `clickMode` changes starting from a fresh
mount, every intermediate engine binding list holds at most one picking click
handler; moreover each effect run first unbinds (the previous render's
handler, then the fresh closure) and only afterwards binds the new handler,
so switching directly from picking start to picking end unbinds the old
handler before the new one is bound. -/
theorem claim1_single_click_handler : ∀ ms : List ClickMode,
    (∀ st ∈ (runClickModes initPickBind ms).2, st.length ≤ 1) ∧
    (∀ (s : PickBindState) (m : ClickMode), (clickModeEffect s m).2.2 =
      [BindEvent.unbind s.renderId, BindEvent.unbind (s.renderId + 1)] ++
        (if m = ClickMode.cnone then [] else [BindEvent.bind (s.renderId + 1)])) := by
  intro ms
  constructor
  · exact (runClickModes_inv ms initPickBind (Or.inl rfl)).2
  · intro s m
    by_cases hm : m = ClickMode.cnone <;> simp [clickModeEffect, hm]

/-! ## C5: a map click in PickingStart mode -/

/-- A tracked endpoint marker's id is below the engine's allocation counter. -/
def markerFresh (o : Option EngMarker) (nid : ℕ) : Bool :=
  match o with
  | none => true
  | some m => decide (m.id < nid)

/-- Well-formedness of the component state: every engine marker id, and the id
of each tracked endpoint marker, is below the engine's allocation counter. -/
def cstateWF (s : CState) : Bool :=
  match s.map with
  | none => true
  | some e =>
    e.markers.all (fun m => decide (m.id < e.nextMarkerId)) &&
      markerFresh s.startMarker e.nextMarkerId && markerFresh s.endMarker e.nextMarkerId

/-- **C5.** In mode PickingStart, a map click at `(lng = -0.63, lat = 35.70)`
sets the start coordinates to `(-0.63, 35.70)`, sets the display text to
`"35.7000, -0.6300"` (latitude then longitude, 4 decimal places), places
exactly one green start marker — removing any prior start marker — and
returns the mode to Idle. -/
theorem claim5_pick_start_click (s : CState) (e : Engine)
    (hm : s.map = some e) (hmode : s.clickMode = ClickMode.cstart)
    (hwf : cstateWF s = true) :
    ∃ e' nm,
      (handleLocationClick ⟨mkRat (-63) 100, mkRat 357 10⟩ s).map = some e' ∧
      (handleLocationClick ⟨mkRat (-63) 100, mkRat 357 10⟩ s).startCoords =
        some ⟨mkRat (-63) 100, mkRat 357 10⟩ ∧
      (handleLocationClick ⟨mkRat (-63) 100, mkRat 357 10⟩ s).startLocation =
        "35.7000, -0.6300" ∧
      (handleLocationClick ⟨mkRat (-63) 100, mkRat 357 10⟩ s).clickMode = ClickMode.cnone ∧
      (handleLocationClick ⟨mkRat (-63) 100, mkRat 357 10⟩ s).startMarker = some nm ∧
      nm.color = "#10b981" ∧ nm.lng = mkRat (-63) 100 ∧ nm.lat = mkRat 357 10 ∧
      e'.markers.countP (fun x => decide (x.id = nm.id)) = 1 ∧
      (∀ old, s.startMarker = some old →
        e'.markers.countP (fun x => decide (x.id = old.id)) = 0) := by
  obtain ⟨mapf, cm, sl, el, sc, ec, smk, emk, rr, lr, arh, sip, srp⟩ := s
  simp only at hmode hm hwf
  subst hmode
  subst hm
  simp only [cstateWF, Bool.and_eq_true, List.all_eq_true, markerFresh] at hwf
  obtain ⟨⟨hall, hfs⟩, hfe⟩ := hwf
  have hdisp : coordDisplayText ⟨mkRat (-63) 100, mkRat 357 10⟩ = "35.7000, -0.6300" := by
    decide
  cases smk with
  | none =>
    refine ⟨_, _, rfl, rfl, hdisp, rfl, rfl, rfl, rfl, rfl, ?_, ?_⟩
    · rw [List.countP_append]
      have hz : e.markers.countP (fun x => decide (x.id = e.nextMarkerId)) = 0 := by
        rw [List.countP_eq_zero]
        intro x hx
        have := hall x hx
        simp only [decide_eq_true_eq] at this ⊢
        omega
      rw [hz]
      simp [List.countP_cons]
    · intro old hold
      simp at hold
  | some old0 =>
    refine ⟨_, _, rfl, rfl, hdisp, rfl, rfl, rfl, rfl, rfl, ?_, ?_⟩
    · rw [List.countP_append]
      have hz : (e.markers.filter (fun x => decide (x.id ≠ old0.id))).countP
          (fun x => decide (x.id = e.nextMarkerId)) = 0 := by
        rw [List.countP_eq_zero]
        intro x hx
        have hxm := List.mem_filter.mp hx
        have := hall x hxm.1
        simp only [decide_eq_true_eq] at this ⊢
        omega
      rw [hz]
      simp [List.countP_cons]
    · intro old hold
      simp only [Option.some.injEq] at hold
      cases hold
      rw [List.countP_append]
      have hz : (e.markers.filter (fun x => decide (x.id ≠ old0.id))).countP
          (fun x => decide (x.id = old0.id)) = 0 := by
        rw [List.countP_eq_zero]
        intro x hx
        have hxm := List.mem_filter.mp hx
        simp only [decide_eq_true_eq] at hxm ⊢
        exact hxm.2
      rw [hz]
      have hlt : old0.id < e.nextMarkerId := by
        simpa using hfs
      have hne : ¬ (e.nextMarkerId = old0.id) := by omega
      simp [List.countP_cons, hne]

def c5state : CState :=
  ⟨some engineEmpty, ClickMode.cstart, "", "", none, none, none, none, [], false, [],
    false, false⟩

theorem claim5_witness :
    c5state.map = some engineEmpty ∧ c5state.clickMode = ClickMode.cstart ∧
    cstateWF c5state = true ∧
    (∃ e' nm,
      (handleLocationClick ⟨mkRat (-63) 100, mkRat 357 10⟩ c5state).map = some e' ∧
      (handleLocationClick ⟨mkRat (-63) 100, mkRat 357 10⟩ c5state).startCoords =
        some ⟨mkRat (-63) 100, mkRat 357 10⟩ ∧
      (handleLocationClick ⟨mkRat (-63) 100, mkRat 357 10⟩ c5state).startLocation =
        "35.7000, -0.6300" ∧
      (handleLocationClick ⟨mkRat (-63) 100, mkRat 357 10⟩ c5state).clickMode =
        ClickMode.cnone ∧
      (handleLocationClick ⟨mkRat (-63) 100, mkRat 357 10⟩ c5state).startMarker = some nm ∧
      nm.color = "#10b981" ∧ nm.lng = mkRat (-63) 100 ∧ nm.lat = mkRat 357 10 ∧
      e'.markers.countP (fun x => decide (x.id = nm.id)) = 1 ∧
      (∀ old, c5state.startMarker = some old →
        e'.markers.countP (fun x => decide (x.id = old.id)) = 0)) :=
  ⟨rfl, rfl, by decide, claim5_pick_start_click c5state engineEmpty rfl rfl (by decide)⟩

/-! ## C7: what the Escape key actually resets -/

theorem filter_pre_of_cleared (p : String) (base : List String) :
    (base.filter (fun x => !startsWithB x p)).filter (fun x => startsWithB x p) = [] := by
  induction base with
  | nil => rfl
  | cons a l ih =>
    by_cases h : startsWithB a p = true
    · simp [List.filter_cons, h, ih]
    · simp only [Bool.not_eq_true] at h
      simp [List.filter_cons, h, ih]

def mGreenC7 : EngMarker := ⟨0, "#10b981", mkRat (-63) 100, mkRat 357 10⟩

def c7engine : Engine := { engineEmpty with markers := [mGreenC7], nextMarkerId := 1 }

def c7state : CState :=
  ⟨some c7engine, ClickMode.cnone, "35.7000, -0.6300", "",
    some ⟨mkRat (-63) 100, mkRat 357 10⟩, none, some mGreenC7, none, [], false, [],
    false, true⟩

/-- **C7 counterexample.** Escape does *not* perform the full reset: from a
state with a selected start endpoint, pressing Escape leaves the start
marker, its display text and its coordinates in place. -/
theorem claim7_counterexample :
    (handleKeyDown "Escape" c7state).startMarker = some mGreenC7 ∧
    (handleKeyDown "Escape" c7state).startLocation = "35.7000, -0.6300" ∧
    (handleKeyDown "Escape" c7state).startCoords ≠ none := by
  decide

/-- **C7 (amended).** The Escape key closes both panels, clears all route
overlays and the stored result sequence, empties the handler-tracking list and
returns the mode to Idle — but it leaves the endpoint selections (coordinates
and display texts) and their markers untouched; the full reset including
endpoint markers is only performed by the explicit clear button. -/
theorem claim7_amended (s : CState) (e : Engine)
    (hm : s.map = some e) (hl : e.layers.Nodup) (hs : e.sources.Nodup) :
    ∃ e', (handleKeyDown "Escape" s).map = some e' ∧
      routeLayersOf e' = [] ∧ routeSourcesOf e' = [] ∧ e'.markers = e.markers ∧
      (handleKeyDown "Escape" s).routeResults = [] ∧
      (handleKeyDown "Escape" s).clickMode = ClickMode.cnone ∧
      (handleKeyDown "Escape" s).showInfoPanel = false ∧
      (handleKeyDown "Escape" s).showRoutePanel = false ∧
      (handleKeyDown "Escape" s).activeRouteHandlers = [] ∧
      (handleKeyDown "Escape" s).startMarker = s.startMarker ∧
      (handleKeyDown "Escape" s).endMarker = s.endMarker ∧
      (handleKeyDown "Escape" s).startCoords = s.startCoords ∧
      (handleKeyDown "Escape" s).endCoords = s.endCoords ∧
      (handleKeyDown "Escape" s).startLocation = s.startLocation ∧
      (handleKeyDown "Escape" s).endLocation = s.endLocation := by
  obtain ⟨e1, hc1, hcl, hcs, hcm, hcn, hcf, hcy, htr⟩ :=
    clearRouteLayersFromMap_spec
      { s with showInfoPanel := false, showRoutePanel := false } e hm hl hs
  have hred : handleKeyDown "Escape" s =
      { (clearRouteLayersFromMap
          { s with showInfoPanel := false, showRoutePanel := false }).1 with
        routeResults := ([] : List ClientRoute), clickMode := ClickMode.cnone } := by
    simp [handleKeyDown]
  rw [hred, hc1]
  dsimp only
  refine ⟨e1, rfl, ?_, ?_, hcm, rfl, rfl, rfl, rfl, rfl, rfl, rfl, rfl, rfl, rfl, rfl⟩
  · rw [routeLayersOf, hcl]
    exact filter_pre_of_cleared rlPre e.layers
  · rw [routeSourcesOf, hcs]
    exact filter_pre_of_cleared rsPre e.sources

theorem claim7_witness :
    c7state.map = some c7engine ∧ c7engine.layers.Nodup ∧ c7engine.sources.Nodup ∧
    (∃ e', (handleKeyDown "Escape" c7state).map = some e' ∧
      routeLayersOf e' = [] ∧ routeSourcesOf e' = [] ∧ e'.markers = c7engine.markers ∧
      (handleKeyDown "Escape" c7state).routeResults = [] ∧
      (handleKeyDown "Escape" c7state).clickMode = ClickMode.cnone ∧
      (handleKeyDown "Escape" c7state).showInfoPanel = false ∧
      (handleKeyDown "Escape" c7state).showRoutePanel = false ∧
      (handleKeyDown "Escape" c7state).activeRouteHandlers = [] ∧
      (handleKeyDown "Escape" c7state).startMarker = c7state.startMarker ∧
      (handleKeyDown "Escape" c7state).endMarker = c7state.endMarker ∧
      (handleKeyDown "Escape" c7state).startCoords = c7state.startCoords ∧
      (handleKeyDown "Escape" c7state).endCoords = c7state.endCoords ∧
      (handleKeyDown "Escape" c7state).startLocation = c7state.startLocation ∧
      (handleKeyDown "Escape" c7state).endLocation = c7state.endLocation) :=
  ⟨rfl, by decide, by decide,
    claim7_amended c7state c7engine rfl (by decide) (by decide)⟩

/-! ## C2: overlay replacement -/

theorem filter_pre_append_map (p : String) (f : ℕ → String)
    (hf : ∀ j, startsWithB (f j) p = true) (base : List String) (idx : List ℕ) :
    ((base.filter (fun x => !startsWithB x p)) ++ idx.map f).filter
      (fun x => startsWithB x p) = idx.map f := by
  rw [List.filter_append, filter_pre_of_cleared, List.nil_append]
  apply List.filter_eq_self.mpr
  intro a ha
  obtain ⟨j, _, rfl⟩ := List.mem_map.mp ha
  exact hf j

def c2state : CState :=
  ⟨some engineEmpty, ClickMode.cnone, "", "", none, none, none, none, [], false, [],
    false, false⟩

/-- The number of `route-layer-*` layers currently on the engine. -/
def routeLayerCount (s : CState) : ℕ :=
  match s.map with
  | some e => (routeLayersOf e).length
  | none => 0

/-- **C2 counterexample.** `displayRoutesOnMap` adds a layer only for routes
that carry geometry with coordinates, so rendering `R1 = []` and then
`R2 = [noGeomRoute]` leaves `0` route layers, not `|R2| = 1`. -/
theorem claim2_counterexample :
    routeLayerCount (displayRoutesOnMap [noGeomRoute]
        (displayRoutesOnMap [] c2state).1).1 ≠
      ([noGeomRoute] : List ClientRoute).length := by
  decide

/-- **C2 (amended).** `displayRoutesOnMap R1` followed by
`displayRoutesOnMap R2` leaves exactly one route layer and one route source
per route of `R2` that carries geometry with coordinates — their id sets are
exactly those derived from `R2`'s geometry-carrying indices, so nothing from
`R1` remains — and during the replacement all handler-detach operations
precede all layer removals, which precede all source removals, which precede
the additions. -/
theorem claim2_display_replaces (R1 R2 : List ClientRoute) (s : CState) (e : Engine)
    (hm : s.map = some e) (hl : e.layers.Nodup) (hs : e.sources.Nodup) :
    ∃ e2, ((displayRoutesOnMap R2 (displayRoutesOnMap R1 s).1).1).map = some e2 ∧
      routeLayersOf e2 = (geomIndices R2).map routeLayerId ∧
      routeSourcesOf e2 = (geomIndices R2).map routeSourceId ∧
      (routeLayersOf e2).length = (geomIndices R2).length ∧
      (routeSourcesOf e2).length = (geomIndices R2).length ∧
      (∃ t1 t2 t3 t4,
        (displayRoutesOnMap R2 (displayRoutesOnMap R1 s).1).2 = t1 ++ t2 ++ t3 ++ t4 ∧
        (∀ ev ∈ t1, isOffEvent ev = true) ∧
        (∀ ev ∈ t2, isRemoveLayerEvent ev = true) ∧
        (∀ ev ∈ t3, isRemoveSourceEvent ev = true) ∧
        (∀ ev ∈ t4, isAddEvent ev = true)) := by
  obtain ⟨e1, hd1, _, _, _, _, _, _, hn1, hn2, _⟩ := displayRoutesOnMap_spec R1 s e hm hl hs
  have hm1 : ((displayRoutesOnMap R1 s).1).map = some e1 := by rw [hd1]
  obtain ⟨e2, hd2, hl2, hs2, _, _, _, _, _, _, htr⟩ :=
    displayRoutesOnMap_spec R2 (displayRoutesOnMap R1 s).1 e1 hm1 hn1 hn2
  have hL : routeLayersOf e2 = (geomIndices R2).map routeLayerId := by
    rw [routeLayersOf, hl2]
    exact filter_pre_append_map rlPre routeLayerId routeLayerId_sw e1.layers (geomIndices R2)
  have hS : routeSourcesOf e2 = (geomIndices R2).map routeSourceId := by
    rw [routeSourcesOf, hs2]
    exact filter_pre_append_map rsPre routeSourceId routeSourceId_sw e1.sources (geomIndices R2)
  refine ⟨e2, by rw [hd2], hL, hS, ?_, ?_, htr⟩
  · rw [hL, List.length_map]
  · rw [hS, List.length_map]

theorem claim2_witness :
    c2state.map = some engineEmpty ∧ engineEmpty.layers.Nodup ∧
    engineEmpty.sources.Nodup ∧
    (∃ e2, ((displayRoutesOnMap [noGeomRoute]
        (displayRoutesOnMap [] c2state).1).1).map = some e2 ∧
      routeLayersOf e2 = (geomIndices [noGeomRoute]).map routeLayerId ∧
      routeSourcesOf e2 = (geomIndices [noGeomRoute]).map routeSourceId ∧
      (routeLayersOf e2).length = (geomIndices [noGeomRoute]).length ∧
      (routeSourcesOf e2).length = (geomIndices [noGeomRoute]).length ∧
      (∃ t1 t2 t3 t4,
        (displayRoutesOnMap [noGeomRoute] (displayRoutesOnMap [] c2state).1).2 =
          t1 ++ t2 ++ t3 ++ t4 ∧
        (∀ ev ∈ t1, isOffEvent ev = true) ∧
        (∀ ev ∈ t2, isRemoveLayerEvent ev = true) ∧
        (∀ ev ∈ t3, isRemoveSourceEvent ev = true) ∧
        (∀ ev ∈ t4, isAddEvent ev = true))) :=
  ⟨rfl, by decide, by decide,
    claim2_display_replaces [] [noGeomRoute] c2state engineEmpty rfl (by decide) (by decide)⟩

/-! ## C10: a successful search against the mocked backend renders nothing -/

theorem searchBusRoutes_ok_spec (s : CState) (routes : List ClientRoute) (e : Engine)
    (hm : s.map = some e) (hl : e.layers.Nodup) (hs : e.sources.Nodup)
    (h1 : ¬ jsTrim s.startLocation = "") (h2 : ¬ jsTrim s.endLocation = "")
    (hne : routes ≠ []) :
    ∃ e', ((searchBusRoutes (FetchOutcome.ok routes) s).1).map = some e' ∧
      routeLayersOf e' = (geomIndices routes).map routeLayerId ∧
      routeSourcesOf e' = (geomIndices routes).map routeSourceId ∧
      ((searchBusRoutes (FetchOutcome.ok routes) s).1).routeResults = routes ∧
      ((searchBusRoutes (FetchOutcome.ok routes) s).1).isLoadingRoute = false := by
  cases routes with
  | nil => exact absurd rfl hne
  | cons r0 rl =>
    obtain ⟨e', hd, hdl, hds, _, _, _, _, _, _, _⟩ :=
      displayRoutesOnMap_spec (r0 :: rl)
        { s with isLoadingRoute := true, routeResults := r0 :: rl } e hm hl hs
    have hL : routeLayersOf e' = (geomIndices (r0 :: rl)).map routeLayerId := by
      rw [routeLayersOf, hdl]
      exact filter_pre_append_map rlPre routeLayerId routeLayerId_sw e.layers _
    have hS : routeSourcesOf e' = (geomIndices (r0 :: rl)).map routeSourceId := by
      rw [routeSourcesOf, hds]
      exact filter_pre_append_map rsPre routeSourceId routeSourceId_sw e.sources _
    cases hb : r0.bounds with
    | none =>
      refine ⟨e', ?_, hL, hS, ?_, ?_⟩ <;>
        simp [searchBusRoutes, h1, h2, hb, hd]
    | some b =>
      refine ⟨{ e' with lastFit := some (b.southwest.lng, b.southwest.lat,
          b.northeast.lng, b.northeast.lat) }, ?_, ?_, ?_, ?_, ?_⟩
      · simp [searchBusRoutes, h1, h2, hb, hd, fitBoundsOnMap]
      · simpa [routeLayersOf] using hL
      · simpa [routeSourcesOf] using hS
      · simp [searchBusRoutes, h1, h2, hb, hd, fitBoundsOnMap]
      · simp [searchBusRoutes, h1, h2, hb, hd, fitBoundsOnMap]

/-- **C10.** `displayRoutesOnMap` adds a source/layer pair only for routes
that carry geometry with coordinates; every route of the backend's mocked
`POST /api/routes/search` payload lacks a geometry field, so a successful
search against this backend stores the two mock routes but renders zero route
overlays on the map. -/
theorem claim10_mock_search_renders_nothing (s : CState) (e : Engine) (x : String)
    (hm : s.map = some e) (hl : e.layers.Nodup) (hs : e.sources.Nodup)
    (h1 : ¬ jsTrim s.startLocation = "") (h2 : ¬ jsTrim s.endLocation = "") :
    ∃ e', ((searchBusRoutes (FetchOutcome.ok ((mockRoutes x).map toClientRoute)) s).1).map =
        some e' ∧
      routeLayersOf e' = [] ∧ routeSourcesOf e' = [] ∧
      ((searchBusRoutes (FetchOutcome.ok ((mockRoutes x).map toClientRoute)) s).1).routeResults
        = (mockRoutes x).map toClientRoute ∧
      ((mockRoutes x).map toClientRoute).length = 2 ∧
      (∀ r ∈ (mockRoutes x).map toClientRoute, r.geometry = none) := by
  have hne : (mockRoutes x).map toClientRoute ≠ [] := by simp [mockRoutes]
  obtain ⟨e', ha, hb, hc, hdres, hload⟩ :=
    searchBusRoutes_ok_spec s ((mockRoutes x).map toClientRoute) e hm hl hs h1 h2 hne
  have hgi : geomIndices ((mockRoutes x).map toClientRoute) = [] := rfl
  refine ⟨e', ha, ?_, ?_, hdres, rfl, ?_⟩
  · rw [hb, hgi]
    rfl
  · rw [hc, hgi]
    rfl
  · intro r hr
    obtain ⟨r0, _, rfl⟩ := List.mem_map.mp hr
    rfl

def c10state : CState :=
  ⟨some engineEmpty, ClickMode.cnone, "35.70, -0.63", "35.69, -0.65", none, none, none,
    none, [], false, [], false, false⟩

theorem claim10_witness :
    c10state.map = some engineEmpty ∧ engineEmpty.layers.Nodup ∧
    engineEmpty.sources.Nodup ∧ (¬ jsTrim c10state.startLocation = "") ∧
    (¬ jsTrim c10state.endLocation = "") ∧
    (∃ e', ((searchBusRoutes
          (FetchOutcome.ok ((mockRoutes "Oran").map toClientRoute)) c10state).1).map =
        some e' ∧
      routeLayersOf e' = [] ∧ routeSourcesOf e' = [] ∧
      ((searchBusRoutes
          (FetchOutcome.ok ((mockRoutes "Oran").map toClientRoute)) c10state).1).routeResults
        = (mockRoutes "Oran").map toClientRoute ∧
      ((mockRoutes "Oran").map toClientRoute).length = 2 ∧
      (∀ r ∈ (mockRoutes "Oran").map toClientRoute, r.geometry = none)) :=
  ⟨rfl, by decide, by decide, by decide, by decide,
    claim10_mock_search_renders_nothing c10state engineEmpty "Oran" rfl (by decide)
      (by decide) (by decide) (by decide)⟩

end Triqi